import Mathlib

/-!
Verification of `remote_training/remote_training.py`.

The script substitutes experiment parameters into a notebook template
(`prepare_notebook`), builds a kernel metadata dictionary (`define_config`),
builds a CLI parser (`init_parser_specs`, `get_git_branch_name`) and drives the
whole run (`main`).  Strings are modelled as `List Char` (`Str`); Python's
`str.replace` is modelled by `replStr`; the effectful parts of `main` are
modelled as a function from an environment of external-call outcomes to a
trace of attempted effects plus an `Except` result, where an `error`
result is an uncaught Python exception propagating out of `main`.
-/

namespace RemoteTraining

/-- Python strings, modelled as lists of characters. -/
abbrev Str := List Char

/-- The single-quote character, written via its code point. -/
def sq : Char := Char.ofNat 39

/-- Python `str.replace` (all leftmost non-overlapping occurrences),
with explicit fuel; the wrapper `replStr` supplies fuel `s.length`.
(For the empty pattern Python inserts between all characters; all patterns
used by the script are nonempty, and `replF` is the identity there.) -/
def replF (p rep : Str) : Nat → Str → Str
  | 0, s => s
  | _ + 1, [] => []
  | n + 1, c :: rest =>
    if p.isPrefixOf (c :: rest) && !p.isEmpty then
      rep ++ replF p rep n (rest.drop (p.length - 1))
    else
      c :: replF p rep n rest

/-- Python `s.replace(p, rep)` for nonempty `p`. -/
def replStr (p rep s : Str) : Str := replF p rep s.length s

/-- `spansB p s t` holds when an occurrence of `p` starts inside `s`
in the concatenation `s ++ t` (it may extend into `t`). -/
def spansB (p : Str) : Str → Str → Bool
  | [], _ => false
  | c :: s, t => p.isPrefixOf (c :: (s ++ t)) || spansB p s t

/-- Python's substring test `p in s`. -/
def occursB (p : Str) : Str → Bool
  | [] => p.isEmpty
  | c :: rest => p.isPrefixOf (c :: rest) || occursB p rest

/-- The eight placeholder names of the `expressions` list in
`prepare_notebook`, in source order. -/
inductive Expr
  | exp | iteration | branch | git_user | git_repo | pipeline
  | output_dir | dataset_files
deriving DecidableEq

/-- The name of a placeholder, as written in the template. -/
def exprName : Expr → Str
  | .exp => "exp".toList
  | .iteration => "iteration".toList
  | .branch => "branch".toList
  | .git_user => "git_user".toList
  | .git_repo => "git_repo".toList
  | .pipeline => "pipeline".toList
  | .output_dir => "output_dir".toList
  | .dataset_files => "dataset_files".toList

/-- The placeholder text `!!!name!!!` looked up in template lines. -/
def ph (e : Expr) : Str := "!!!".toList ++ exprName e ++ "!!!".toList

/-- The `expressions` list order of `prepare_notebook`. -/
def exprList : List Expr :=
  [.exp, .iteration, .branch, .git_user, .git_repo, .pipeline,
   .output_dir, .dataset_files]

/-- One step of the inner loop of `prepare_notebook`: the guard tests the
original line `li` (the loop variable of `enumerate`), while the
replacement is applied to the current, already partially substituted
line `cur` (`template_nb[line_idx]`). -/
def applyExpr (val : Expr → Str) (li : Str) (cur : Str) (e : Expr) : Str :=
  if occursB (ph e) li then replStr (ph e) (val e) cur else cur

/-- The full inner loop of `prepare_notebook` on one template line. -/
def seqLine (val : Expr → Str) (li : Str) : Str :=
  exprList.foldl (applyExpr val li) li

/-- Specification-side substitution, with fuel: scan the line left to
right; at each position substitute the first placeholder of
`exprList` that matches, otherwise keep the character. -/
def simF (val : Expr → Str) : Nat → Str → Str
  | 0, s => s
  | _ + 1, [] => []
  | n + 1, c :: rest =>
    match exprList.find? (fun e => (ph e).isPrefixOf (c :: rest)) with
    | some e => val e ++ simF val n (rest.drop ((ph e).length - 1))
    | none => c :: simF val n rest

/-- Modelled from the spec: "every occurrence of a placeholder
`!!!name!!!` ... is replaced by the corresponding rendered value, and
all other text in every line is left unchanged", read as simultaneous
left-to-right substitution of the placeholder occurrences of the
original line. -/
def simSubst (val : Expr → Str) (s : Str) : Str := simF val s.length s

/-- A decomposition of a template line into literal text and
placeholder occurrences. -/
inductive Chunk
  | lit (s : Str)
  | hole (e : Expr)
deriving DecidableEq

/-- The text a chunk contributes to the original line. -/
def chunkText : Chunk → Str
  | .lit s => s
  | .hole e => ph e

/-- The text a chunk contributes to the fully substituted line. -/
def chunkSub (val : Expr → Str) : Chunk → Str
  | .lit s => s
  | .hole e => val e

/-- The original line a decomposition stands for. -/
def flattenChunks (cs : List Chunk) : Str := (cs.map chunkText).flatten

/-- The line with every placeholder of the decomposition substituted. -/
def substChunks (val : Expr → Str) (cs : List Chunk) : Str :=
  (cs.map (chunkSub val)).flatten

/-- The text of a chunk after the placeholders in `prev` have already
been substituted. -/
def gApp (val : Expr → Str) (prev : List Expr) : Chunk → Str
  | .lit s => s
  | .hole e => if e ∈ prev then val e else ph e

/-- The concatenation of a tagged chunk list, with `true`-tagged chunks
contributing the pattern `p`. -/
def curText (p : Str) (l : List (Bool × Str)) : Str :=
  (l.map (fun bs => if bs.1 then p else bs.2)).flatten

/-- The concatenation of a tagged chunk list, with `true`-tagged chunks
contributing the replacement `rep`. -/
def tgtText (rep : Str) (l : List (Bool × Str)) : Str :=
  (l.map (fun bs => if bs.1 then rep else bs.2)).flatten

/-- No occurrence of `p` starts inside an untagged chunk: replacing `p`
in the concatenation touches exactly the `true`-tagged chunks. -/
def noSpurB (p : Str) : List (Bool × Str) → Bool
  | [] => true
  | (true, _) :: l => noSpurB p l
  | (false, s) :: l => !(spansB p s (curText p l)) && noSpurB p l

/-- The tagged chunk list at the substitution step for `e`, the
placeholders of `prev` having been substituted already. -/
def stepPairs (val : Expr → Str) (prev : List Expr) (e : Expr)
    (cs : List Chunk) : List (Bool × Str) :=
  cs.map (fun c => (c == Chunk.hole e, gApp val prev c))

/-- Soundness of a decomposition for the remaining expressions `rest`,
`prev` having been substituted: at each step, if the guard
(`placeholder in original line`) fires, the replacement touches
exactly the holes of the decomposition. -/
def soundFrom (val : Expr → Str) (cs : List Chunk) :
    List Expr → List Expr → Bool
  | _, [] => true
  | prev, e :: rest =>
    (!(occursB (ph e) (flattenChunks cs)) ||
      noSpurB (ph e) (stepPairs val prev e cs)) &&
    soundFrom val cs (prev ++ [e]) rest

/-- Soundness of a decomposition for the sequential substitution. -/
def soundB (val : Expr → Str) (cs : List Chunk) : Bool :=
  soundFrom val cs [] exprList

/-- Soundness of a decomposition for the specification-side scan: the
scan of the original line recovers exactly the decomposition. -/
def scanOkB : List Chunk → Bool
  | [] => true
  | .lit s :: cs =>
    exprList.all (fun e => !(spansB (ph e) s (flattenChunks cs))) &&
    scanOkB cs
  | .hole e :: cs =>
    (exprList.find?
        (fun e2 => (ph e2).isPrefixOf (ph e ++ flattenChunks cs)) ==
      some e) &&
    scanOkB cs

theorem replF_fuel (p rep : Str) :
    ∀ n m s, s.length ≤ n → s.length ≤ m →
      replF p rep n s = replF p rep m s := by
  intro n
  induction n with
  | zero =>
    intro m s hs _
    have hnil : s = [] := List.length_eq_zero.mp (Nat.le_zero.mp hs)
    subst hnil
    cases m <;> simp [replF]
  | succ n ih =>
    intro m s hs hm
    cases s with
    | nil => cases m <;> simp [replF]
    | cons c rest =>
      cases m with
      | zero => simp at hm
      | succ m' =>
        simp only [List.length_cons, Nat.succ_le_succ_iff] at hs hm
        simp only [replF]
        by_cases h : (p.isPrefixOf (c :: rest) && !p.isEmpty) = true
        · rw [if_pos h, if_pos h]
          congr 1
          apply ih
          · simp only [List.length_drop]; omega
          · simp only [List.length_drop]; omega
        · rw [if_neg h, if_neg h]
          congr 1
          exact ih m' rest hs hm

theorem replStr_cons_pos {p : Str} {c : Char} {s : Str} (rep : Str)
    (h : p.isPrefixOf (c :: s) = true) (hp : p ≠ []) :
    replStr p rep (c :: s) = rep ++ replStr p rep (s.drop (p.length - 1)) := by
  have hpe : p.isEmpty = false := by
    cases p
    · exact absurd rfl hp
    · rfl
  simp only [replStr, List.length_cons, replF, h, hpe, Bool.not_false,
    Bool.and_true, if_pos]
  congr 1
  apply replF_fuel
  · simp only [List.length_drop]; omega
  · exact Nat.le_refl _

theorem replStr_cons_neg {p : Str} {c : Char} {s : Str} (rep : Str)
    (h : p.isPrefixOf (c :: s) = false) :
    replStr p rep (c :: s) = c :: replStr p rep s := by
  simp [replStr, replF, h]

theorem replStr_head {p : Str} (rep t : Str) (hp : p ≠ []) :
    replStr p rep (p ++ t) = rep ++ replStr p rep t := by
  obtain ⟨q, p', rfl⟩ : ∃ q p', p = q :: p' := by
    cases p
    · exact absurd rfl hp
    · exact ⟨_, _, rfl⟩
  have hpre : (q :: p').isPrefixOf ((q :: p') ++ t) = true := by
    simp [List.isPrefixOf_iff_prefix]
  rw [List.cons_append] at hpre ⊢
  rw [replStr_cons_pos rep hpre hp]
  congr 1
  have hd : (p' ++ t).drop ((q :: p').length - 1) = t := by
    simp [List.drop_left]
  rw [hd]

theorem replStr_skip {p : Str} (rep : Str) :
    ∀ s t, spansB p s t = false →
      replStr p rep (s ++ t) = s ++ replStr p rep t := by
  intro s
  induction s with
  | nil => intro t _; simp
  | cons c s' ih =>
    intro t hs
    simp only [spansB, Bool.or_eq_false_iff] at hs
    rw [List.cons_append, replStr_cons_neg rep hs.1, ih t hs.2,
      List.cons_append]

theorem noSpur_repl {p : Str} (rep : Str) (hp : p ≠ []) :
    ∀ l, noSpurB p l = true → replStr p rep (curText p l) = tgtText rep l := by
  intro l
  induction l with
  | nil => intro _; rfl
  | cons bs l ih =>
    obtain ⟨b, s⟩ := bs
    cases b with
    | true =>
      intro h
      simp only [noSpurB] at h
      have hc : curText p ((true, s) :: l) = p ++ curText p l := by
        simp [curText]
      have ht : tgtText rep ((true, s) :: l) = rep ++ tgtText rep l := by
        simp [tgtText]
      rw [hc, ht, replStr_head rep _ hp, ih h]
    | false =>
      intro h
      simp only [noSpurB, Bool.and_eq_true, Bool.not_eq_true'] at h
      have hc : curText p ((false, s) :: l) = s ++ curText p l := by
        simp [curText]
      have ht : tgtText rep ((false, s) :: l) = s ++ tgtText rep l := by
        simp [tgtText]
      rw [hc, ht, replStr_skip rep s _ h.1, ih h.2]

theorem ph_ne_nil (e : Expr) : ph e ≠ [] := by
  cases e <;> simp [ph]

theorem occursB_of_isPrefixOf {p s : Str} (h : p.isPrefixOf s = true) :
    occursB p s = true := by
  cases s with
  | nil =>
    cases p with
    | nil => rfl
    | cons q p' => simp [List.isPrefixOf] at h
  | cons c rest => simp [occursB, h]

theorem occursB_append_right {p : Str} (s t : Str)
    (h : occursB p t = true) : occursB p (s ++ t) = true := by
  induction s with
  | nil => simpa
  | cons c s' ih => simp [occursB, ih]

theorem hole_mem_occurs {e : Expr} {cs : List Chunk}
    (h : Chunk.hole e ∈ cs) :
    occursB (ph e) (flattenChunks cs) = true := by
  induction cs with
  | nil => simp at h
  | cons c cs' ih =>
    have hfl : flattenChunks (c :: cs') = chunkText c ++ flattenChunks cs' := by
      simp [flattenChunks]
    rcases List.mem_cons.mp h with h1 | h2
    · subst h1
      rw [hfl]
      exact occursB_of_isPrefixOf
        (List.isPrefixOf_iff_prefix.mpr (List.prefix_append _ _))
    · rw [hfl]
      exact occursB_append_right _ _ (ih h2)

theorem curText_stepPairs (val : Expr → Str) (prev : List Expr) (e : Expr)
    (cs : List Chunk) (he : e ∉ prev) :
    curText (ph e) (stepPairs val prev e cs)
      = (cs.map (gApp val prev)).flatten := by
  simp only [curText, stepPairs, List.map_map]
  congr 1
  apply List.map_congr_left
  intro c _
  simp only [Function.comp_apply]
  by_cases hc : c = Chunk.hole e
  · subst hc; simp [gApp, he]
  · simp [hc]

theorem tgtText_stepPairs (val : Expr → Str) (prev : List Expr) (e : Expr)
    (cs : List Chunk) :
    tgtText (val e) (stepPairs val prev e cs)
      = (cs.map (gApp val (prev ++ [e]))).flatten := by
  simp only [tgtText, stepPairs, List.map_map]
  congr 1
  apply List.map_congr_left
  intro c _
  simp only [Function.comp_apply]
  by_cases hc : c = Chunk.hole e
  · subst hc; simp [gApp]
  · cases c with
    | lit s => simp [gApp, hc]
    | hole e2 =>
      have hne : e2 ≠ e := by rintro rfl; exact hc rfl
      simp [gApp, hc, hne]

theorem gApp_skip (val : Expr → Str) (prev : List Expr) (e : Expr)
    (cs : List Chunk) (h : Chunk.hole e ∉ cs) :
    cs.map (gApp val (prev ++ [e])) = cs.map (gApp val prev) := by
  apply List.map_congr_left
  intro c hc
  cases c with
  | lit s => rfl
  | hole e2 =>
    have hne : e2 ≠ e := by rintro rfl; exact h hc
    simp [gApp, hne]

theorem seq_fold (val : Expr → Str) (cs : List Chunk) :
    ∀ rest prev, (prev ++ rest).Nodup →
      soundFrom val cs prev rest = true →
      rest.foldl (applyExpr val (flattenChunks cs))
          ((cs.map (gApp val prev)).flatten)
        = (cs.map (gApp val (prev ++ rest))).flatten := by
  intro rest
  induction rest with
  | nil => intro prev _ _; simp
  | cons e rest' ih =>
    intro prev hnd hsound
    simp only [soundFrom, Bool.and_eq_true] at hsound
    obtain ⟨hstep, hrest⟩ := hsound
    have hnd' : ((prev ++ [e]) ++ rest').Nodup := by
      simpa [List.append_assoc] using hnd
    have he : e ∉ prev := by
      intro hmem
      exact List.disjoint_of_nodup_append hnd hmem (List.mem_cons_self e rest')
    simp only [List.foldl_cons]
    have hstepeq : applyExpr val (flattenChunks cs)
        ((cs.map (gApp val prev)).flatten) e
        = (cs.map (gApp val (prev ++ [e]))).flatten := by
      unfold applyExpr
      by_cases ho : occursB (ph e) (flattenChunks cs) = true
      · rw [if_pos ho]
        have hns : noSpurB (ph e) (stepPairs val prev e cs) = true := by
          simpa [ho] using hstep
        rw [← curText_stepPairs val prev e cs he,
          noSpur_repl (val e) (ph_ne_nil e) _ hns, tgtText_stepPairs]
      · rw [if_neg ho]
        have hnm : Chunk.hole e ∉ cs := fun hmem => ho (hole_mem_occurs hmem)
        rw [gApp_skip val prev e cs hnm]
    rw [hstepeq]
    have hres := ih (prev ++ [e]) hnd' hrest
    simpa [List.append_assoc] using hres

theorem seqLine_chunks (val : Expr → Str) (cs : List Chunk)
    (h : soundB val cs = true) :
    seqLine val (flattenChunks cs) = substChunks val cs := by
  have h0 : cs.map (gApp val []) = cs.map chunkText := by
    apply List.map_congr_left
    intro c _
    cases c <;> simp [gApp, chunkText]
  have h1 : cs.map (gApp val ([] ++ exprList)) = cs.map (chunkSub val) := by
    apply List.map_congr_left
    intro c _
    cases c with
    | lit s => rfl
    | hole e =>
      have : e ∈ exprList := by cases e <;> simp [exprList]
      simp [gApp, chunkSub, this]
  have hnd : (([] : List Expr) ++ exprList).Nodup := by decide
  have hfold := seq_fold val cs exprList [] hnd h
  rw [h0] at hfold
  rw [h1] at hfold
  unfold seqLine
  rw [show flattenChunks cs = (cs.map chunkText).flatten from rfl] at hfold ⊢
  rw [hfold]
  rfl

theorem simF_fuel (val : Expr → Str) :
    ∀ n m s, s.length ≤ n → s.length ≤ m →
      simF val n s = simF val m s := by
  intro n
  induction n with
  | zero =>
    intro m s hs _
    have hnil : s = [] := List.length_eq_zero.mp (Nat.le_zero.mp hs)
    subst hnil
    cases m <;> simp [simF]
  | succ n ih =>
    intro m s hs hm
    cases s with
    | nil => cases m <;> simp [simF]
    | cons c rest =>
      cases m with
      | zero => simp at hm
      | succ m' =>
        simp only [List.length_cons, Nat.succ_le_succ_iff] at hs hm
        simp only [simF]
        cases hf : exprList.find? (fun e => (ph e).isPrefixOf (c :: rest)) with
        | none =>
          show c :: simF val n rest = c :: simF val m' rest
          congr 1
          exact ih m' rest hs hm
        | some e =>
          show val e ++ simF val n (rest.drop ((ph e).length - 1))
            = val e ++ simF val m' (rest.drop ((ph e).length - 1))
          congr 1
          apply ih
          · simp only [List.length_drop]; omega
          · simp only [List.length_drop]; omega

theorem simSubst_hit (val : Expr → Str) (e : Expr) (t : Str)
    (hf : exprList.find? (fun e2 => (ph e2).isPrefixOf (ph e ++ t)) = some e) :
    simSubst val (ph e ++ t) = val e ++ simSubst val t := by
  obtain ⟨q, p', hq⟩ : ∃ q p', ph e = q :: p' := by
    cases hcase : ph e with
    | nil => exact absurd hcase (ph_ne_nil e)
    | cons q p' => exact ⟨_, _, rfl⟩
  rw [hq] at hf ⊢
  rw [List.cons_append] at hf ⊢
  simp only [simSubst, List.length_cons, simF, hf]
  congr 1
  have hd : (p' ++ t).drop ((ph e).length - 1) = t := by
    rw [hq]
    simp [List.drop_left]
  rw [hd]
  apply simF_fuel
  · simp only [List.length_append]; omega
  · exact Nat.le_refl _

theorem simSubst_cons_none {c : Char} {s : Str} (val : Expr → Str)
    (hfind : exprList.find? (fun e => (ph e).isPrefixOf (c :: s)) = none) :
    simSubst val (c :: s) = c :: simSubst val s := by
  simp only [simSubst, List.length_cons, simF]
  rw [hfind]

theorem simSubst_skip (val : Expr → Str) :
    ∀ s t, (∀ e ∈ exprList, spansB (ph e) s t = false) →
      simSubst val (s ++ t) = s ++ simSubst val t := by
  intro s
  induction s with
  | nil => intro t _; simp
  | cons c s' ih =>
    intro t hs
    have hfind : exprList.find?
        (fun e => (ph e).isPrefixOf (c :: (s' ++ t))) = none := by
      apply List.find?_eq_none.mpr
      intro e he
      have hsp := hs e he
      simp only [spansB, List.cons_append, Bool.or_eq_false_iff] at hsp
      simp [hsp.1]
    have hs' : ∀ e ∈ exprList, spansB (ph e) s' t = false := by
      intro e he
      have hsp := hs e he
      simp only [spansB, Bool.or_eq_false_iff] at hsp
      exact hsp.2
    rw [List.cons_append, simSubst_cons_none val hfind, ih t hs',
      List.cons_append]

theorem scan_chunks (val : Expr → Str) :
    ∀ cs, scanOkB cs = true →
      simSubst val (flattenChunks cs) = substChunks val cs := by
  intro cs
  induction cs with
  | nil => intro _; rfl
  | cons c cs' ih =>
    intro h
    have hfl : flattenChunks (c :: cs') = chunkText c ++ flattenChunks cs' := by
      simp [flattenChunks]
    have hsb : substChunks val (c :: cs')
        = chunkSub val c ++ substChunks val cs' := by
      simp [substChunks]
    cases c with
    | lit s =>
      simp only [scanOkB, Bool.and_eq_true, List.all_eq_true] at h
      obtain ⟨hall, hrest⟩ := h
      rw [hfl, hsb]
      rw [show chunkText (Chunk.lit s) = s from rfl,
        show chunkSub val (Chunk.lit s) = s from rfl]
      rw [simSubst_skip val s _ (fun e he => by
        have := hall e he
        simpa using this)]
      rw [ih hrest]
    | hole e =>
      simp only [scanOkB, Bool.and_eq_true, beq_iff_eq] at h
      obtain ⟨hfind, hrest⟩ := h
      rw [hfl, hsb]
      rw [show chunkText (Chunk.hole e) = ph e from rfl,
        show chunkSub val (Chunk.hole e) = val e from rfl]
      rw [simSubst_hit val e _ hfind, ih hrest]

/-- Python values interpolated by `prepare_notebook`'s f-strings: the
`exp`/`iteration` parameters are `int` by their annotation, but `main`
passes the lists `args.exp`/`args.iteration`; both renderings are
modelled. -/
inductive PyObj
  | int (n : Int)
  | intList (l : List Int)
deriving DecidableEq

/-- Python `str(x)` (f-string interpolation) for the values above. -/
def pyStr : PyObj → Str
  | .int n => (toString n).toList
  | .intList l =>
    "[".toList ++ (String.intercalate ", " (l.map toString)).toList
      ++ "]".toList

/-- Python `f"'{s}'"`. -/
def quoted (s : Str) : Str := sq :: (s ++ [sq])

/-- Python `str` of a list of strings (`f"{dataset_files}"`), for
elements without quote or backslash characters, whose `repr` is the
single-quoted text. -/
def pyStrList (l : List Str) : Str :=
  "[".toList ++ List.intercalate ", ".toList (l.map quoted) ++ "]".toList

/-- The text `None`, rendered for absent optional values. -/
def noneText : Str := "None".toList

/-- The rendered replacement value of each placeholder, from the
`expressions` list of `prepare_notebook` (source lines 109-118). -/
def renderVal (exp iteration : PyObj)
    (branch git_user git_repo pipeline : Str) (output_dir : Option Str)
    (dataset_files : Option (List Str)) : Expr → Str
  | .exp => pyStr exp
  | .iteration => pyStr iteration
  | .branch => quoted branch
  | .git_user => quoted git_user
  | .git_repo => quoted git_repo
  | .pipeline => quoted pipeline
  | .output_dir =>
    match output_dir with
    | none => noneText
    | some d => quoted d
  | .dataset_files =>
    match dataset_files with
    | none => noneText
    | some l => pyStrList l

/-- Python exceptions the script can raise or propagate. -/
inductive PyExc
  | notImplementedError
  | keyError (k : String)
  | assertionError (msg : String)
  | osError (msg : String)
  | apiError (msg : String)
  | systemExit
  | calledProcessError
deriving DecidableEq

instance {ε α : Type} [DecidableEq ε] [DecidableEq α] :
    DecidableEq (Except ε α) := fun a b =>
  match a, b with
  | .ok x, .ok y => decidable_of_iff (x = y) (by simp)
  | .error x, .error y => decidable_of_iff (x = y) (by simp)
  | .ok _, .error _ => isFalse (by simp)
  | .error _, .ok _ => isFalse (by simp)

/-- The parsed CLI arguments `main` uses: the destinations added by
`init_parser_specs` plus the training destinations added by `get_parser_specs`
(`args.exp`, `args.iteration`, `args.full`, `args.learning`,
`args.testing`). -/
structure Args where
  notebook_id : String
  user : String
  branch : String
  cpu : Bool
  push : Bool
  download : Bool
  exp : List Int
  iteration : List Int
  full : Bool
  learning : Bool
  testing : Bool
deriving DecidableEq

/-- A user record of `__kaggle_login.kaggle_users`; only the
`username` key is read in this file. -/
structure KUser where
  username : String
deriving DecidableEq

/-- The kernel metadata dictionary built by `define_config`; fields
are listed in the dict's insertion order. -/
structure Config where
  id : String
  title : String
  code_file : String
  language : String
  kernel_type : String
  is_private : String
  enable_gpu : String
  enable_tpu : String
  enable_internet : String
  full_pipeline : String
  learning_pipeline : String
  testing_pipeline : String
  dataset_sources : List String
  competition_sources : List String
  kernel_sources : List String
  model_sources : List String
deriving DecidableEq

/-- Python `str.lower` (the script's notebook ids are ASCII). -/
def pyLower (s : String) : String := String.map Char.toLower s

/-- `define_config` (source lines 134-167); the external constant
`constants.KAGGLE_DATASET_LIST` is a parameter. -/
def define_config (args : Args) (kaggle_user : KUser)
    (exp_str notebook_id : String) (KAGGLE_DATASET_LIST : List String) :
    Config :=
  ⟨kaggle_user.username ++ "/" ++ exp_str,
   pyLower notebook_id,
   notebook_id ++ ".ipynb",
   "python",
   "notebook",
   "true",
   if !args.cpu then "true" else "false",
   "false",
   "true",
   if args.full then "true" else "false",
   if args.learning then "true" else "false",
   if args.testing then "true" else "false",
   KAGGLE_DATASET_LIST,
   [], [], []⟩

/-- External effects attempted by the script, recorded in order. -/
inductive Event
  | load_config
  | makedirs (path : String)
  | kernels_output (kernel : String) (path : String)
  | run_tar (args : List String)
  | rmtree (path : String)
  | open_template
  | write_nb (path : String) (content : Str)
  | write_meta (path : String) (config : Config)
  | kernels_push (path : String)
deriving DecidableEq

/-- Message of `assert git_user is not None, ...`. -/
def gitUserMsg : String := "Please provide a git username for the repo"

/-- Message of `assert git_repo is not None, ...`. -/
def gitRepoMsg : String := "Please provide a git repo name for the repo"

/-- `prepare_notebook` (source lines 77-131): the two asserts, the
template read, the substitution loop and the output write, in that
order.  File contents and I/O outcomes come from the caller:
`template_read` is the outcome of opening and reading the template
(its lines keep their newline characters, as with `readlines`),
`write_r` the outcome of the output write.  The trace lists the
attempted file effects in order; an `error` result is an uncaught
exception. -/
def prepare_notebook (output_nb_path : String) (exp iteration : PyObj)
    (branch : Str) (git_user git_repo : Option Str) (pipeline : Str)
    (template_read : Except PyExc (List Str)) (output_dir : Option Str)
    (dataset_files : Option (List Str)) (write_r : Except PyExc Unit) :
    List Event × Except PyExc Unit :=
  match git_user with
  | none => ([], .error (.assertionError gitUserMsg))
  | some gu =>
  match git_repo with
  | none => ([], .error (.assertionError gitRepoMsg))
  | some gr =>
  match template_read with
  | .error e => ([.open_template], .error e)
  | .ok template_nb =>
    let val := renderVal exp iteration branch gu gr pipeline
      output_dir dataset_files
    let content := (template_nb.map (seqLine val)).flatten
    match write_r with
    | .error e =>
      ([.open_template, .write_nb output_nb_path content], .error e)
    | .ok _ =>
      ([.open_template, .write_nb output_nb_path content], .ok ())

/-- Modelled from the spec: the file content claim C1 describes - the
concatenation of the template lines, every placeholder occurrence
replaced by its rendered value (`simSubst`) and all other text
unchanged. -/
def specContent (exp iteration : PyObj)
    (branch git_user git_repo pipeline : Str) (output_dir : Option Str)
    (dataset_files : Option (List Str)) (template_nb : List Str) : Str :=
  (template_nb.map (simSubst (renderVal exp iteration branch git_user
    git_repo pipeline output_dir dataset_files))).flatten

theorem content_eq (val : Expr → Str) (decomp : List (List Chunk))
    (h : ∀ cs ∈ decomp, soundB val cs = true ∧ scanOkB cs = true) :
    ((decomp.map flattenChunks).map (seqLine val)).flatten
      = ((decomp.map flattenChunks).map (simSubst val)).flatten := by
  congr 1
  simp only [List.map_map]
  apply List.map_congr_left
  intro cs hcs
  simp only [Function.comp_apply]
  rw [seqLine_chunks val cs (h cs hcs).1, ← scan_chunks val cs (h cs hcs).2]

/-- C1, corrected: for every template whose lines decompose into
literal segments and placeholder occurrences such that the
substitution steps touch exactly those occurrences (`soundB`: no
overlapping occurrences, and no placeholder text arising from literal
segments or substituted values; `scanOkB`: the left-to-right scan
recovers the same decomposition), `prepare_notebook` writes to
`output_nb_path` exactly the concatenation of the lines in which every
placeholder occurrence is replaced by its rendered value and all other
text is left unchanged (`specContent`). -/
theorem C1_prepare_notebook_substitutes (output_nb_path : String)
    (exp iteration : PyObj) (branch git_user git_repo pipeline : Str)
    (output_dir : Option Str) (dataset_files : Option (List Str))
    (decomp : List (List Chunk))
    (hsound : ∀ cs ∈ decomp,
      soundB (renderVal exp iteration branch git_user git_repo pipeline
        output_dir dataset_files) cs = true ∧ scanOkB cs = true) :
    prepare_notebook output_nb_path exp iteration branch
        (some git_user) (some git_repo) pipeline
        (.ok (decomp.map flattenChunks)) output_dir dataset_files (.ok ())
      = ([.open_template,
          .write_nb output_nb_path
            (specContent exp iteration branch git_user git_repo pipeline
              output_dir dataset_files (decomp.map flattenChunks))],
         .ok ()) := by
  have hc := content_eq
    (renderVal exp iteration branch git_user git_repo pipeline
      output_dir dataset_files) decomp hsound
  show ([Event.open_template,
      Event.write_nb output_nb_path
        ((decomp.map flattenChunks).map (seqLine
          (renderVal exp iteration branch git_user git_repo pipeline
            output_dir dataset_files))).flatten], Except.ok ())
    = _
  rw [hc]
  rfl

/-- Witness for C1 (corrected): a concrete two-line template,
`exp = !!!exp!!!` and `branch = !!!branch!!!`, on which the written
content is `exp = 7` and `branch = 'main'` with the newlines kept. -/
theorem C1_witness :
    prepare_notebook "out.ipynb" (.int 7) (.int 3) "main".toList
        (some "u".toList) (some "r".toList) "full".toList
        (.ok ([[Chunk.lit "exp = ".toList, Chunk.hole .exp,
                Chunk.lit "\n".toList],
               [Chunk.lit "branch = ".toList, Chunk.hole .branch,
                Chunk.lit "\n".toList]].map flattenChunks))
        none none (.ok ())
      = ([.open_template,
          .write_nb "out.ipynb"
            (specContent (.int 7) (.int 3) "main".toList "u".toList
              "r".toList "full".toList none none
              ([[Chunk.lit "exp = ".toList, Chunk.hole .exp,
                 Chunk.lit "\n".toList],
                [Chunk.lit "branch = ".toList, Chunk.hole .branch,
                 Chunk.lit "\n".toList]].map flattenChunks))],
         .ok ()) :=
  C1_prepare_notebook_substitutes "out.ipynb" (PyObj.int 7) (PyObj.int 3)
    "main".toList "u".toList "r".toList "full".toList none none
    [[Chunk.lit "exp = ".toList, Chunk.hole Expr.exp,
      Chunk.lit "\n".toList],
     [Chunk.lit "branch = ".toList, Chunk.hole Expr.branch,
      Chunk.lit "\n".toList]]
    (by decide)

/-- Counterexample to C1 as stated: on the template line
`!!!iteration!!!exp!!!`, whose two placeholder occurrences overlap,
the code writes `!!!iteration7` (the `exp` substitution, tried first,
consumes the tail of the `iteration` occurrence, whose replacement
then never fires), while the claimed substitution of every placeholder
occurrence yields `3exp!!!`. -/
theorem C1_counterexample :
    prepare_notebook "out.ipynb" (.int 7) (.int 3) "main".toList
        (some "u".toList) (some "r".toList) "full".toList
        (.ok ["!!!iteration!!!exp!!!".toList]) none none (.ok ())
      ≠ ([.open_template,
          .write_nb "out.ipynb"
            (specContent (.int 7) (.int 3) "main".toList "u".toList
              "r".toList "full".toList none none
              ["!!!iteration!!!exp!!!".toList])], .ok ()) := by
  decide

/-- C2 (confirmed): `define_config` maps the fields as the claim says:
`id` is the username joined to `exp_str` by a slash, `title` the
lower-cased notebook id, `code_file` the notebook id with suffix
`.ipynb`, `enable_gpu` is `"true"` iff the cpu flag is false, the
three pipeline fields are `"true"` iff the corresponding flag is set,
`is_private` and `enable_internet` are always `"true"` and
`enable_tpu` always `"false"`. -/
theorem C2_define_config_fields (args : Args) (kaggle_user : KUser)
    (exp_str notebook_id : String) (kdl : List String) :
    (define_config args kaggle_user exp_str notebook_id kdl).id
        = kaggle_user.username ++ "/" ++ exp_str
    ∧ (define_config args kaggle_user exp_str notebook_id kdl).title
        = pyLower notebook_id
    ∧ (define_config args kaggle_user exp_str notebook_id kdl).code_file
        = notebook_id ++ ".ipynb"
    ∧ ((define_config args kaggle_user exp_str notebook_id kdl).enable_gpu
        = "true" ↔ args.cpu = false)
    ∧ ((define_config args kaggle_user exp_str notebook_id kdl).full_pipeline
        = "true" ↔ args.full = true)
    ∧ ((define_config args kaggle_user exp_str notebook_id
        kdl).learning_pipeline = "true" ↔ args.learning = true)
    ∧ ((define_config args kaggle_user exp_str notebook_id
        kdl).testing_pipeline = "true" ↔ args.testing = true)
    ∧ (define_config args kaggle_user exp_str notebook_id kdl).is_private
        = "true"
    ∧ (define_config args kaggle_user exp_str notebook_id
        kdl).enable_internet = "true"
    ∧ (define_config args kaggle_user exp_str notebook_id kdl).enable_tpu
        = "false" := by
  cases hc : args.cpu <;> cases hf : args.full <;>
    cases hl : args.learning <;> cases ht : args.testing <;>
      simp [define_config, hc, hf, hl, ht]

/-- C10 (confirmed): `prepare_notebook` asserts that `git_user` and
`git_repo` are not `None` - though both default to `None` - before
opening, reading or writing any file: with either at `None` it returns
the corresponding `AssertionError` with an empty effect trace, so the
output path is untouched. -/
theorem C10_prepare_notebook_asserts (output_nb_path : String)
    (exp iteration : PyObj) (branch : Str) (gr2 : Option Str) (gu : Str)
    (pipeline : Str) (template_read : Except PyExc (List Str))
    (output_dir : Option Str) (dataset_files : Option (List Str))
    (write_r : Except PyExc Unit) :
    prepare_notebook output_nb_path exp iteration branch none gr2
        pipeline template_read output_dir dataset_files write_r
      = ([], .error (.assertionError gitUserMsg))
    ∧ prepare_notebook output_nb_path exp iteration branch (some gu)
        none pipeline template_read output_dir dataset_files write_r
      = ([], .error (.assertionError gitRepoMsg)) :=
  ⟨rfl, rfl⟩

/-- Python `str.isspace` characters stripped by `str.strip`. -/
def isSpaceChar (c : Char) : Bool :=
  c == ' ' || c == '\t' || c == '\n' || c == '\r' ||
  c == Char.ofNat 11 || c == Char.ofNat 12

/-- Python `str.strip` (both ends). -/
def pyStrip (s : String) : String :=
  String.mk (((s.toList.dropWhile
    isSpaceChar).reverse.dropWhile isSpaceChar).reverse)

/-- The sentinel string returned when the git call fails. -/
def gitErrorMsg : String := "Error: Could not determine the Git branch name."

/-- `get_git_branch_name` (source lines 16-31): `git_r` is the outcome
of `subprocess.check_output(["git", "branch", "--show-current"])`;
only `CalledProcessError` is caught, yielding the sentinel; any other
exception propagates. -/
def get_git_branch_name (git_r : Except PyExc String) :
    Except PyExc String :=
  match git_r with
  | .ok out => .ok (pyStrip out)
  | .error .calledProcessError => .ok gitErrorMsg
  | .error e => .error e

/-- How an argparse argument stores its value. -/
inductive ArgAction
  | store
  | store_true
deriving DecidableEq

/-- One `add_argument` call: flag strings, destination, action, help
text, default and choices. -/
structure ArgSpec where
  flags : List String
  dest : String
  action : ArgAction
  help : String
  defaultVal : Option String
  choices : Option (List String)
deriving DecidableEq

/-- `init_parser_specs` (source lines 34-74).  The parser is modelled as its
list of argument specifications (`None` becomes the empty list); the
external constant `constants.NOTEBOOK_ID` and the keys of
`kaggle_users` are parameters; the `--branch` default evaluates
`get_git_branch_name()`, whose uncaught exceptions propagate. -/
def init_parser_specs (parser : List ArgSpec) (NOTEBOOK_ID : String)
    (user_choices : List String) (git_r : Except PyExc String) :
    Except PyExc (List ArgSpec) :=
  match get_git_branch_name git_r with
  | .error e => .error e
  | .ok branch_default =>
    .ok (parser ++
      [⟨["-n", "--notebook_id"], "notebook_id", .store,
        "Notebook name in kaggle", some NOTEBOOK_ID, none⟩,
       ⟨["-u", "--user"], "user", .store, "Kaggle user", none,
        some user_choices⟩,
       ⟨["--branch"], "branch", .store, "Git branch name",
        some branch_default, none⟩,
       ⟨["--cpu"], "cpu", .store_true, "Force CPU", none, none⟩,
       ⟨["-p", "--push"], "push", .store_true, "Push", none, none⟩,
       ⟨["-d", "--download"], "download", .store_true,
        "Download results", none, none⟩])

/-- Modelled from the spec: `get_parser_specs` (src/pipeline/train) is not
under src/; `main`'s uses of `args.exp`, `args.iteration`,
`args.full`, `args.learning` and `args.testing` show that it adds
training arguments with these destinations (their flag strings are not
visible from this file and are modelled as the long form of the
destination). -/
def get_parser_specs (parser : List ArgSpec) : List ArgSpec :=
  parser ++
    [⟨["--exp"], "exp", .store, "", none, none⟩,
     ⟨["--iteration"], "iteration", .store, "", none, none⟩,
     ⟨["--full"], "full", .store_true, "", none, none⟩,
     ⟨["--learning"], "learning", .store_true, "", none, none⟩,
     ⟨["--testing"], "testing", .store_true, "", none, none⟩]

/-- The parser `main` builds (source lines 178-179): `init_parser_specs()`
followed by `get_parser_specs(parser)`. -/
def main_parser_specs (NOTEBOOK_ID : String) (user_choices : List String)
    (git_r : Except PyExc String) : Except PyExc (List ArgSpec) :=
  match init_parser_specs [] NOTEBOOK_ID user_choices git_r with
  | .error e => .error e
  | .ok ps => .ok (get_parser_specs ps)

/-- Python `f"{n:05d}"`: zero-pad to width 5, sign included. -/
def fmt05 (n : Int) : String :=
  let s := toString n.natAbs
  if n < 0 then "-" ++ String.mk (List.replicate (4 - s.length) '0') ++ s
  else String.mk (List.replicate (5 - s.length) '0') ++ s

/-- Outcomes of the external calls `main` makes and the external
constants it reads: argument parsing (argparse may raise or exit), the
`kaggle_users` table, the kaggle API calls, the file system, and the
values of the `constants` module.  `shutil.rmtree(...,
ignore_errors=True)` and `subprocess.run` without `check=True` do not
raise, so they have no outcome here. -/
structure Env where
  parse_r : Except PyExc Args
  kaggle_users : String → Option KUser
  load_config_r : Except PyExc Unit
  makedirs_r : String → Except PyExc Unit
  kernels_output_r : Except PyExc Unit
  tar_r : Except PyExc Unit
  template_r : Except PyExc (List Str)
  write_nb_r : Except PyExc Unit
  exists_nb : Bool
  write_meta_r : Except PyExc Unit
  push_r : Except PyExc Unit
  GIT_USER : Option Str
  GIT_REPO : Option Str
  KAGGLE_DATASET_LIST : List String
  OUTPUT_FOLDER : String

/-- The pipeline dispatch of `main` (source lines 184-191); `none` is
the `raise NotImplementedError` branch. -/
def pipelineOf (args : Args) : Option String :=
  if args.full then some "full"
  else if args.learning then some "learning"
  else if args.testing then some "testing"
  else none

/-- `main` (source lines 170-226), as a function from the environment
of external outcomes to the ordered trace of attempted effects and the
result; an `.error` result is an exception propagating out of `main`
uncaught. -/
def main (env : Env) : List Event × Except PyExc Unit :=
  match env.parse_r with
  | .error e => ([], .error e)
  | .ok args =>
    let notebook_id := args.notebook_id
    let exp_str := String.intercalate "_" (args.exp.map fmt05)
    let iteration_str := String.intercalate "_" (args.iteration.map fmt05)
    match pipelineOf args with
    | none => ([], .error .notImplementedError)
    | some pipeline =>
      match env.kaggle_users args.user with
      | none => ([], .error (.keyError args.user))
      | some kaggle_user =>
        let uname_kaggle := kaggle_user.username
        match env.load_config_r with
        | .error e => ([.load_config], .error e)
        | .ok _ =>
          if args.download then
            let tmp_dir := "__tmp_" ++ exp_str ++ "_" ++ iteration_str
            match env.makedirs_r tmp_dir with
            | .error e => ([.load_config, .makedirs tmp_dir], .error e)
            | .ok _ =>
              match env.kernels_output_r with
              | .error e =>
                ([.load_config, .makedirs tmp_dir,
                  .kernels_output (kaggle_user.username ++ "/" ++
                    notebook_id) tmp_dir], .error e)
              | .ok _ =>
                match env.tar_r with
                | .error e =>
                  ([.load_config, .makedirs tmp_dir,
                    .kernels_output (kaggle_user.username ++ "/" ++
                      notebook_id) tmp_dir,
                    .run_tar ["tar", "-xzf", tmp_dir ++ "/output.tgz",
                      env.OUTPUT_FOLDER]], .error e)
                | .ok _ =>
                  ([.load_config, .makedirs tmp_dir,
                    .kernels_output (kaggle_user.username ++ "/" ++
                      notebook_id) tmp_dir,
                    .run_tar ["tar", "-xzf", tmp_dir ++ "/output.tgz",
                      env.OUTPUT_FOLDER],
                    .rmtree tmp_dir], .ok ())
          else
            let kernel_root := "__nb_" ++ uname_kaggle
            let kernel_path := kernel_root ++ "/" ++ exp_str
            match env.makedirs_r kernel_path with
            | .error e => ([.load_config, .makedirs kernel_path], .error e)
            | .ok _ =>
              let config := define_config args kaggle_user exp_str
                notebook_id env.KAGGLE_DATASET_LIST
              let nb_path := kernel_path ++ "/" ++ notebook_id ++ ".ipynb"
              let prep := prepare_notebook nb_path (.intList args.exp)
                (.intList args.iteration) args.branch.toList env.GIT_USER
                env.GIT_REPO pipeline.toList env.template_r
                (some env.OUTPUT_FOLDER.toList) none env.write_nb_r
              match prep.2 with
              | .error e =>
                ([.load_config, .makedirs kernel_path] ++ prep.1, .error e)
              | .ok _ =>
                if env.exists_nb then
                  match env.write_meta_r with
                  | .error e =>
                    ([.load_config, .makedirs kernel_path] ++ prep.1 ++
                      [.write_meta (kernel_path ++ "/kernel-metadata.json")
                        config], .error e)
                  | .ok _ =>
                    if args.push then
                      match env.push_r with
                      | .error e =>
                        ([.load_config, .makedirs kernel_path] ++ prep.1 ++
                          [.write_meta
                            (kernel_path ++ "/kernel-metadata.json") config,
                           .kernels_push kernel_path], .error e)
                      | .ok _ =>
                        ([.load_config, .makedirs kernel_path] ++ prep.1 ++
                          [.write_meta
                            (kernel_path ++ "/kernel-metadata.json") config,
                           .kernels_push kernel_path], .ok ())
                    else
                      ([.load_config, .makedirs kernel_path] ++ prep.1 ++
                        [.write_meta
                          (kernel_path ++ "/kernel-metadata.json") config],
                       .ok ())
                else
                  ([.load_config, .makedirs kernel_path] ++ prep.1,
                   .error (.assertionError ""))

theorem main_nodownload_ok (env : Env) (args : Args) (ku : KUser)
    (p : String) (gu gr : Str) (tmpl : List Str)
    (h1 : env.parse_r = .ok args)
    (h2 : args.download = false)
    (h3 : pipelineOf args = some p)
    (h4 : env.kaggle_users args.user = some ku)
    (h5 : env.load_config_r = .ok ())
    (h6 : env.makedirs_r ("__nb_" ++ ku.username ++ "/" ++
      String.intercalate "_" (args.exp.map fmt05)) = .ok ())
    (h7 : env.GIT_USER = some gu)
    (h8 : env.GIT_REPO = some gr)
    (h9 : env.template_r = .ok tmpl)
    (h10 : env.write_nb_r = .ok ())
    (h11 : env.exists_nb = true)
    (h12 : env.write_meta_r = .ok ())
    (h13 : env.push_r = .ok ()) :
    main env =
      ([Event.load_config,
        Event.makedirs ("__nb_" ++ ku.username ++ "/" ++
          String.intercalate "_" (args.exp.map fmt05)),
        Event.open_template,
        Event.write_nb ("__nb_" ++ ku.username ++ "/" ++
            String.intercalate "_" (args.exp.map fmt05) ++ "/" ++
            args.notebook_id ++ ".ipynb")
          ((tmpl.map (seqLine (renderVal (.intList args.exp)
            (.intList args.iteration) args.branch.toList gu gr
            p.toList (some env.OUTPUT_FOLDER.toList) none))).flatten),
        Event.write_meta ("__nb_" ++ ku.username ++ "/" ++
            String.intercalate "_" (args.exp.map fmt05) ++
            "/kernel-metadata.json")
          (define_config args ku
            (String.intercalate "_" (args.exp.map fmt05))
            args.notebook_id env.KAGGLE_DATASET_LIST)] ++
       (if args.push then
          [Event.kernels_push ("__nb_" ++ ku.username ++ "/" ++
            String.intercalate "_" (args.exp.map fmt05))]
        else []),
       .ok ()) := by
  cases hpush : args.push <;>
    simp [main, h1, h2, h3, h4, h5, h6, h7, h8, h9, h10, h11, h12, h13,
      hpush, prepare_notebook]

/-- C4 (confirmed): on every run that completes without the download
branch, `main` executes the linear sequence: argument parsing, then
the notebook template substitution of `prepare_notebook` (template
read, then the output notebook write), then the kernel-metadata JSON
write, then the optional API push; the trace equation shows each step
exactly once, in this order. -/
theorem C4_main_linear (env : Env) (args : Args) (ku : KUser)
    (p : String) (gu gr : Str) (tmpl : List Str)
    (h1 : env.parse_r = .ok args)
    (h2 : args.download = false)
    (h3 : pipelineOf args = some p)
    (h4 : env.kaggle_users args.user = some ku)
    (h5 : env.load_config_r = .ok ())
    (h6 : env.makedirs_r ("__nb_" ++ ku.username ++ "/" ++
      String.intercalate "_" (args.exp.map fmt05)) = .ok ())
    (h7 : env.GIT_USER = some gu)
    (h8 : env.GIT_REPO = some gr)
    (h9 : env.template_r = .ok tmpl)
    (h10 : env.write_nb_r = .ok ())
    (h11 : env.exists_nb = true)
    (h12 : env.write_meta_r = .ok ())
    (h13 : env.push_r = .ok ()) :
    main env =
      ([Event.load_config,
        Event.makedirs ("__nb_" ++ ku.username ++ "/" ++
          String.intercalate "_" (args.exp.map fmt05)),
        Event.open_template,
        Event.write_nb ("__nb_" ++ ku.username ++ "/" ++
            String.intercalate "_" (args.exp.map fmt05) ++ "/" ++
            args.notebook_id ++ ".ipynb")
          ((tmpl.map (seqLine (renderVal (.intList args.exp)
            (.intList args.iteration) args.branch.toList gu gr
            p.toList (some env.OUTPUT_FOLDER.toList) none))).flatten),
        Event.write_meta ("__nb_" ++ ku.username ++ "/" ++
            String.intercalate "_" (args.exp.map fmt05) ++
            "/kernel-metadata.json")
          (define_config args ku
            (String.intercalate "_" (args.exp.map fmt05))
            args.notebook_id env.KAGGLE_DATASET_LIST)] ++
       (if args.push then
          [Event.kernels_push ("__nb_" ++ ku.username ++ "/" ++
            String.intercalate "_" (args.exp.map fmt05))]
        else []),
       .ok ()) :=
  main_nodownload_ok env args ku p gu gr tmpl h1 h2 h3 h4 h5 h6 h7 h8
    h9 h10 h11 h12 h13

/-- A concrete `Args` value: cpu, push, download, full, learning,
testing flags as given, the other fields fixed. -/
def mkArgs (cpu push download full learning testing : Bool) : Args :=
  ⟨"Notebook", "alice", "main", cpu, push, download, [1], [2],
   full, learning, testing⟩

/-- A concrete environment in which all external calls succeed. -/
def mkEnv (pr : Except PyExc Args) : Env :=
  ⟨pr, fun _ => some ⟨"alice"⟩, .ok (), fun _ => .ok (), .ok (),
   .ok (), .ok ["exp = !!!exp!!!\n".toList], .ok (), true, .ok (),
   .ok (), some "gu".toList, some "gr".toList, ["ds"], "outfold"⟩

/-- Witness for C4: a full-pipeline push run on the sample
environment completes with result `ok`. -/
theorem C4_witness :
    (main (mkEnv (.ok (mkArgs false true false true false false)))).2
      = .ok () := by
  rw [C4_main_linear (mkEnv (.ok (mkArgs false true false true false
      false))) (mkArgs false true false true false false) ⟨"alice"⟩
    "full" "gu".toList "gr".toList ["exp = !!!exp!!!\n".toList]
    rfl rfl rfl rfl rfl rfl rfl rfl rfl rfl rfl rfl rfl]

theorem main_download_ok (env : Env) (args : Args) (ku : KUser)
    (p : String)
    (h1 : env.parse_r = .ok args)
    (h2 : args.download = true)
    (h3 : pipelineOf args = some p)
    (h4 : env.kaggle_users args.user = some ku)
    (h5 : env.load_config_r = .ok ())
    (h6 : env.makedirs_r ("__tmp_" ++
      String.intercalate "_" (args.exp.map fmt05) ++ "_" ++
      String.intercalate "_" (args.iteration.map fmt05)) = .ok ())
    (h7 : env.kernels_output_r = .ok ())
    (h8 : env.tar_r = .ok ()) :
    main env =
      ([Event.load_config,
        Event.makedirs ("__tmp_" ++
          String.intercalate "_" (args.exp.map fmt05) ++ "_" ++
          String.intercalate "_" (args.iteration.map fmt05)),
        Event.kernels_output (ku.username ++ "/" ++ args.notebook_id)
          ("__tmp_" ++ String.intercalate "_" (args.exp.map fmt05) ++
            "_" ++ String.intercalate "_" (args.iteration.map fmt05)),
        Event.run_tar ["tar", "-xzf",
          "__tmp_" ++ String.intercalate "_" (args.exp.map fmt05) ++
            "_" ++ String.intercalate "_" (args.iteration.map fmt05) ++
            "/output.tgz", env.OUTPUT_FOLDER],
        Event.rmtree ("__tmp_" ++
          String.intercalate "_" (args.exp.map fmt05) ++ "_" ++
          String.intercalate "_" (args.iteration.map fmt05))],
       .ok ()) := by
  simp [main, h1, h2, h3, h4, h5, h6, h7, h8]

/-- C6 (confirmed): push and download are optional and mutually
exclusive.  When the download flag is set, `main` downloads and
extracts the results and returns without writing the notebook file,
without writing the kernel-metadata file and without calling the push
API; on non-download runs the push API is called if and only if the
push flag is set. -/
theorem C6_push_download_exclusive :
    (∀ env args ku p,
      env.parse_r = .ok args → args.download = true →
      pipelineOf args = some p →
      env.kaggle_users args.user = some ku →
      env.load_config_r = .ok () →
      env.makedirs_r ("__tmp_" ++
        String.intercalate "_" (args.exp.map fmt05) ++ "_" ++
        String.intercalate "_" (args.iteration.map fmt05)) = .ok () →
      env.kernels_output_r = .ok () → env.tar_r = .ok () →
      (main env).2 = .ok ()
      ∧ (∀ pa c, Event.write_nb pa c ∉ (main env).1)
      ∧ (∀ pa cf, Event.write_meta pa cf ∉ (main env).1)
      ∧ (∀ pa, Event.kernels_push pa ∉ (main env).1))
    ∧ (∀ env args ku p gu gr tmpl,
      env.parse_r = .ok args → args.download = false →
      pipelineOf args = some p →
      env.kaggle_users args.user = some ku →
      env.load_config_r = .ok () →
      env.makedirs_r ("__nb_" ++ ku.username ++ "/" ++
        String.intercalate "_" (args.exp.map fmt05)) = .ok () →
      env.GIT_USER = some gu → env.GIT_REPO = some gr →
      env.template_r = .ok tmpl → env.write_nb_r = .ok () →
      env.exists_nb = true → env.write_meta_r = .ok () →
      env.push_r = .ok () →
      ((∃ pa, Event.kernels_push pa ∈ (main env).1) ↔
        args.push = true)) := by
  constructor
  · intro env args ku p h1 h2 h3 h4 h5 h6 h7 h8
    rw [main_download_ok env args ku p h1 h2 h3 h4 h5 h6 h7 h8]
    refine ⟨rfl, ?_, ?_, ?_⟩ <;> intros <;> simp
  · intro env args ku p gu gr tmpl h1 h2 h3 h4 h5 h6 h7 h8 h9 h10 h11
      h12 h13
    rw [main_nodownload_ok env args ku p gu gr tmpl h1 h2 h3 h4 h5 h6
      h7 h8 h9 h10 h11 h12 h13]
    cases hpush : args.push <;> simp [hpush]

/-- Witness for C6: a download run succeeds with no push call, and a
non-download push run does call the push API. -/
theorem C6_witness :
    ((main (mkEnv (.ok (mkArgs false false true true false false)))).2
      = .ok ()
     ∧ (∀ pa, Event.kernels_push pa ∉
        (main (mkEnv (.ok (mkArgs false false true true false
          false)))).1))
    ∧ ((∃ pa, Event.kernels_push pa ∈
        (main (mkEnv (.ok (mkArgs false true false true false
          false)))).1) ↔
       (mkArgs false true false true false false).push = true) :=
  ⟨⟨(C6_push_download_exclusive.1 _ (mkArgs false false true true false
      false) ⟨"alice"⟩ "full" rfl rfl rfl rfl rfl rfl rfl rfl).1,
    (C6_push_download_exclusive.1 _ (mkArgs false false true true false
      false) ⟨"alice"⟩ "full" rfl rfl rfl rfl rfl rfl rfl rfl).2.2.2⟩,
   C6_push_download_exclusive.2 _ (mkArgs false true false true false
      false) ⟨"alice"⟩ "full" "gu".toList "gr".toList
      ["exp = !!!exp!!!\n".toList] rfl rfl rfl rfl rfl rfl rfl rfl rfl
      rfl rfl rfl rfl⟩

/-- C7 (confirmed): on a completed non-download run the output
notebook and the kernel-metadata file are each written exactly once -
the trace holds exactly one `write_nb` and exactly one `write_meta`
event, so neither file is modified again during the run. -/
theorem C7_single_writes (env : Env) (args : Args) (ku : KUser)
    (p : String) (gu gr : Str) (tmpl : List Str)
    (h1 : env.parse_r = .ok args)
    (h2 : args.download = false)
    (h3 : pipelineOf args = some p)
    (h4 : env.kaggle_users args.user = some ku)
    (h5 : env.load_config_r = .ok ())
    (h6 : env.makedirs_r ("__nb_" ++ ku.username ++ "/" ++
      String.intercalate "_" (args.exp.map fmt05)) = .ok ())
    (h7 : env.GIT_USER = some gu)
    (h8 : env.GIT_REPO = some gr)
    (h9 : env.template_r = .ok tmpl)
    (h10 : env.write_nb_r = .ok ())
    (h11 : env.exists_nb = true)
    (h12 : env.write_meta_r = .ok ())
    (h13 : env.push_r = .ok ()) :
    (main env).1.countP (fun ev => match ev with
      | Event.write_nb _ _ => true
      | _ => false) = 1
    ∧ (main env).1.countP (fun ev => match ev with
      | Event.write_meta _ _ => true
      | _ => false) = 1 := by
  rw [main_nodownload_ok env args ku p gu gr tmpl h1 h2 h3 h4 h5 h6 h7
    h8 h9 h10 h11 h12 h13]
  cases hpush : args.push <;> simp [hpush, List.countP_cons,
    List.countP_append, List.countP_nil]

/-- Witness for C7: the sample push run writes each file once. -/
theorem C7_witness :
    (main (mkEnv (.ok (mkArgs false true false true false
      false)))).1.countP (fun ev => match ev with
        | Event.write_nb _ _ => true
        | _ => false) = 1
    ∧ (main (mkEnv (.ok (mkArgs false true false true false
      false)))).1.countP (fun ev => match ev with
        | Event.write_meta _ _ => true
        | _ => false) = 1 :=
  C7_single_writes _ (mkArgs false true false true false false)
    ⟨"alice"⟩ "full" "gu".toList "gr".toList
    ["exp = !!!exp!!!\n".toList] rfl rfl rfl rfl rfl rfl rfl rfl rfl
    rfl rfl rfl rfl

/-- C9 (confirmed): if none of the full, learning or testing flags is
set, `main` raises `NotImplementedError` with an empty effect trace -
no directory creation, no file write and no API call precede it, so
the file system is unchanged. -/
theorem C9_no_pipeline_no_effects (env : Env) (args : Args)
    (h1 : env.parse_r = .ok args)
    (hf : args.full = false)
    (hl : args.learning = false)
    (ht : args.testing = false) :
    main env = ([], .error .notImplementedError) := by
  simp [main, h1, pipelineOf, hf, hl, ht]

/-- Witness for C9: the sample run with all pipeline flags unset. -/
theorem C9_witness :
    main (mkEnv (.ok (mkArgs false false false false false false)))
      = ([], .error .notImplementedError) :=
  C9_no_pipeline_no_effects _
    (mkArgs false false false false false false) rfl rfl rfl rfl

/-- C8 (confirmed): when the git call fails with
`CalledProcessError`, `get_git_branch_name` does not raise but returns
the sentinel `"Error: Could not determine the Git branch name."`; the
sentinel then becomes the default of the `--branch` flag in the parser
built by `init_parser_specs`, and, used as the branch argument, it is
substituted (single-quoted) into the notebook for the `branch`
placeholder. -/
theorem C8_git_error_sentinel (NOTEBOOK_ID : String)
    (user_choices : List String) :
    get_git_branch_name (.error .calledProcessError) = .ok gitErrorMsg
    ∧ init_parser_specs [] NOTEBOOK_ID user_choices (.error .calledProcessError)
      = .ok [⟨["-n", "--notebook_id"], "notebook_id", .store,
              "Notebook name in kaggle", some NOTEBOOK_ID, none⟩,
             ⟨["-u", "--user"], "user", .store, "Kaggle user", none,
              some user_choices⟩,
             ⟨["--branch"], "branch", .store, "Git branch name",
              some gitErrorMsg, none⟩,
             ⟨["--cpu"], "cpu", .store_true, "Force CPU", none, none⟩,
             ⟨["-p", "--push"], "push", .store_true, "Push", none,
              none⟩,
             ⟨["-d", "--download"], "download", .store_true,
              "Download results", none, none⟩]
    ∧ (∀ exp iteration gu gr pipeline output_dir dataset_files,
        renderVal exp iteration gitErrorMsg.toList gu gr pipeline
          output_dir dataset_files Expr.branch
          = quoted gitErrorMsg.toList) :=
  ⟨rfl, rfl, fun _ _ _ _ _ _ _ => rfl⟩

/-- C5, corrected: `init_parser_specs` does expose exactly the six claimed
flags (notebook id with the external default, user restricted to the
`kaggle_users` keys, branch defaulting to the current git branch name,
and the cpu/push/download toggles), but they are not all of the
program's CLI flags: `main` passes the parser through `get_parser_specs`,
which adds the training arguments `exp`, `iteration`, `full`,
`learning` and `testing`. -/
theorem C5_parser_flags (NOTEBOOK_ID : String)
    (user_choices : List String) (branch_name : String) :
    ((init_parser_specs [] NOTEBOOK_ID user_choices (.ok branch_name)).map
        (fun ps => ps.map ArgSpec.flags))
      = .ok [["-n", "--notebook_id"], ["-u", "--user"], ["--branch"],
             ["--cpu"], ["-p", "--push"], ["-d", "--download"]]
    ∧ (init_parser_specs [] NOTEBOOK_ID user_choices (.ok branch_name)
      = .ok [⟨["-n", "--notebook_id"], "notebook_id", .store,
              "Notebook name in kaggle", some NOTEBOOK_ID, none⟩,
             ⟨["-u", "--user"], "user", .store, "Kaggle user", none,
              some user_choices⟩,
             ⟨["--branch"], "branch", .store, "Git branch name",
              some (pyStrip branch_name), none⟩,
             ⟨["--cpu"], "cpu", .store_true, "Force CPU", none, none⟩,
             ⟨["-p", "--push"], "push", .store_true, "Push", none,
              none⟩,
             ⟨["-d", "--download"], "download", .store_true,
              "Download results", none, none⟩])
    ∧ ((main_parser_specs NOTEBOOK_ID user_choices (.ok branch_name)).map
        (fun ps => ps.map ArgSpec.dest))
      = .ok ["notebook_id", "user", "branch", "cpu", "push", "download",
             "exp", "iteration", "full", "learning", "testing"] :=
  ⟨rfl, rfl, rfl⟩

/-- Counterexample to C5 as stated: the destinations of the parser
`main` actually parses with are not the six of `init_parser_specs` - the
`get_parser_specs` call adds the training flags, `full` among them. -/
theorem C5_counterexample :
    ¬ ((main_parser_specs "Notebook" ["alice"] (.ok "main")).map
        (fun ps => ps.map ArgSpec.dest)
      = .ok ["notebook_id", "user", "branch", "cpu", "push",
             "download"]) := by
  decide

/-- C3 (confirmed): the only exception handler in the program is the
try/except around the git shell call in `get_git_branch_name`, which
catches exactly `CalledProcessError`; every exception raised at any
other point - argument parsing, the pipeline dispatch, the
`kaggle_users` lookup, the API calls, the template substitution
asserts, and every file read or write, in both the download and the
non-download branch - propagates uncaught out of `main` as the
result. -/
theorem C3_single_handler :
    (∀ s, get_git_branch_name (.ok s) = .ok (pyStrip s))
    ∧ get_git_branch_name (.error .calledProcessError) = .ok gitErrorMsg
    ∧ (∀ e, e ≠ PyExc.calledProcessError →
        get_git_branch_name (.error e) = .error e)
    ∧ (∀ env e, env.parse_r = .error e → main env = ([], .error e))
    ∧ (∀ env args, env.parse_r = .ok args → pipelineOf args = none →
        (main env).2 = .error .notImplementedError)
    ∧ (∀ env args p, env.parse_r = .ok args →
        pipelineOf args = some p → env.kaggle_users args.user = none →
        (main env).2 = .error (.keyError args.user))
    ∧ (∀ env args p ku e, env.parse_r = .ok args →
        pipelineOf args = some p →
        env.kaggle_users args.user = some ku →
        env.load_config_r = .error e → (main env).2 = .error e)
    ∧ (∀ env args p ku e, env.parse_r = .ok args →
        args.download = true → pipelineOf args = some p →
        env.kaggle_users args.user = some ku →
        env.load_config_r = .ok () →
        env.makedirs_r ("__tmp_" ++
          String.intercalate "_" (args.exp.map fmt05) ++ "_" ++
          String.intercalate "_" (args.iteration.map fmt05))
          = .error e →
        (main env).2 = .error e)
    ∧ (∀ env args p ku e, env.parse_r = .ok args →
        args.download = true → pipelineOf args = some p →
        env.kaggle_users args.user = some ku →
        env.load_config_r = .ok () →
        env.makedirs_r ("__tmp_" ++
          String.intercalate "_" (args.exp.map fmt05) ++ "_" ++
          String.intercalate "_" (args.iteration.map fmt05)) = .ok () →
        env.kernels_output_r = .error e → (main env).2 = .error e)
    ∧ (∀ env args p ku e, env.parse_r = .ok args →
        args.download = true → pipelineOf args = some p →
        env.kaggle_users args.user = some ku →
        env.load_config_r = .ok () →
        env.makedirs_r ("__tmp_" ++
          String.intercalate "_" (args.exp.map fmt05) ++ "_" ++
          String.intercalate "_" (args.iteration.map fmt05)) = .ok () →
        env.kernels_output_r = .ok () → env.tar_r = .error e →
        (main env).2 = .error e)
    ∧ (∀ env args p ku e, env.parse_r = .ok args →
        args.download = false → pipelineOf args = some p →
        env.kaggle_users args.user = some ku →
        env.load_config_r = .ok () →
        env.makedirs_r ("__nb_" ++ ku.username ++ "/" ++
          String.intercalate "_" (args.exp.map fmt05)) = .error e →
        (main env).2 = .error e)
    ∧ (∀ env args p ku, env.parse_r = .ok args →
        args.download = false → pipelineOf args = some p →
        env.kaggle_users args.user = some ku →
        env.load_config_r = .ok () →
        env.makedirs_r ("__nb_" ++ ku.username ++ "/" ++
          String.intercalate "_" (args.exp.map fmt05)) = .ok () →
        env.GIT_USER = none →
        (main env).2 = .error (.assertionError gitUserMsg))
    ∧ (∀ env args p ku gu, env.parse_r = .ok args →
        args.download = false → pipelineOf args = some p →
        env.kaggle_users args.user = some ku →
        env.load_config_r = .ok () →
        env.makedirs_r ("__nb_" ++ ku.username ++ "/" ++
          String.intercalate "_" (args.exp.map fmt05)) = .ok () →
        env.GIT_USER = some gu → env.GIT_REPO = none →
        (main env).2 = .error (.assertionError gitRepoMsg))
    ∧ (∀ env args p ku gu gr e, env.parse_r = .ok args →
        args.download = false → pipelineOf args = some p →
        env.kaggle_users args.user = some ku →
        env.load_config_r = .ok () →
        env.makedirs_r ("__nb_" ++ ku.username ++ "/" ++
          String.intercalate "_" (args.exp.map fmt05)) = .ok () →
        env.GIT_USER = some gu → env.GIT_REPO = some gr →
        env.template_r = .error e → (main env).2 = .error e)
    ∧ (∀ env args p ku gu gr tmpl e, env.parse_r = .ok args →
        args.download = false → pipelineOf args = some p →
        env.kaggle_users args.user = some ku →
        env.load_config_r = .ok () →
        env.makedirs_r ("__nb_" ++ ku.username ++ "/" ++
          String.intercalate "_" (args.exp.map fmt05)) = .ok () →
        env.GIT_USER = some gu → env.GIT_REPO = some gr →
        env.template_r = .ok tmpl → env.write_nb_r = .error e →
        (main env).2 = .error e)
    ∧ (∀ env args p ku gu gr tmpl, env.parse_r = .ok args →
        args.download = false → pipelineOf args = some p →
        env.kaggle_users args.user = some ku →
        env.load_config_r = .ok () →
        env.makedirs_r ("__nb_" ++ ku.username ++ "/" ++
          String.intercalate "_" (args.exp.map fmt05)) = .ok () →
        env.GIT_USER = some gu → env.GIT_REPO = some gr →
        env.template_r = .ok tmpl → env.write_nb_r = .ok () →
        env.exists_nb = false →
        (main env).2 = .error (.assertionError ""))
    ∧ (∀ env args p ku gu gr tmpl e, env.parse_r = .ok args →
        args.download = false → pipelineOf args = some p →
        env.kaggle_users args.user = some ku →
        env.load_config_r = .ok () →
        env.makedirs_r ("__nb_" ++ ku.username ++ "/" ++
          String.intercalate "_" (args.exp.map fmt05)) = .ok () →
        env.GIT_USER = some gu → env.GIT_REPO = some gr →
        env.template_r = .ok tmpl → env.write_nb_r = .ok () →
        env.exists_nb = true → env.write_meta_r = .error e →
        (main env).2 = .error e)
    ∧ (∀ env args p ku gu gr tmpl e, env.parse_r = .ok args →
        args.download = false → pipelineOf args = some p →
        env.kaggle_users args.user = some ku →
        env.load_config_r = .ok () →
        env.makedirs_r ("__nb_" ++ ku.username ++ "/" ++
          String.intercalate "_" (args.exp.map fmt05)) = .ok () →
        env.GIT_USER = some gu → env.GIT_REPO = some gr →
        env.template_r = .ok tmpl → env.write_nb_r = .ok () →
        env.exists_nb = true → env.write_meta_r = .ok () →
        args.push = true → env.push_r = .error e →
        (main env).2 = .error e) := by
  refine ⟨fun s => rfl, rfl, ?_, ?_, ?_, ?_, ?_, ?_, ?_, ?_, ?_, ?_,
    ?_, ?_, ?_, ?_, ?_, ?_⟩
  · intro e he
    cases e <;> first | rfl | exact absurd rfl he
  · intro env e h1
    simp [main, h1]
  · intro env args h1 h2
    simp [main, h1, h2]
  · intro env args p h1 h2 h3
    simp [main, h1, h2, h3]
  · intro env args p ku e h1 h2 h3 h4
    simp [main, h1, h2, h3, h4]
  · intro env args p ku e h1 h2 h3 h4 h5 h6
    simp [main, h1, h2, h3, h4, h5, h6]
  · intro env args p ku e h1 h2 h3 h4 h5 h6 h7
    simp [main, h1, h2, h3, h4, h5, h6, h7]
  · intro env args p ku e h1 h2 h3 h4 h5 h6 h7 h8
    simp [main, h1, h2, h3, h4, h5, h6, h7, h8]
  · intro env args p ku e h1 h2 h3 h4 h5 h6
    simp [main, h1, h2, h3, h4, h5, h6]
  · intro env args p ku h1 h2 h3 h4 h5 h6 h7
    simp [main, prepare_notebook, h1, h2, h3, h4, h5, h6, h7]
  · intro env args p ku gu h1 h2 h3 h4 h5 h6 h7 h8
    simp [main, prepare_notebook, h1, h2, h3, h4, h5, h6, h7, h8]
  · intro env args p ku gu gr e h1 h2 h3 h4 h5 h6 h7 h8 h9
    simp [main, prepare_notebook, h1, h2, h3, h4, h5, h6, h7, h8, h9]
  · intro env args p ku gu gr tmpl e h1 h2 h3 h4 h5 h6 h7 h8 h9 h10
    simp [main, prepare_notebook, h1, h2, h3, h4, h5, h6, h7, h8, h9,
      h10]
  · intro env args p ku gu gr tmpl h1 h2 h3 h4 h5 h6 h7 h8 h9 h10 h11
    simp [main, prepare_notebook, h1, h2, h3, h4, h5, h6, h7, h8, h9,
      h10, h11]
  · intro env args p ku gu gr tmpl e h1 h2 h3 h4 h5 h6 h7 h8 h9 h10 h11
      h12
    simp [main, prepare_notebook, h1, h2, h3, h4, h5, h6, h7, h8, h9,
      h10, h11, h12]
  · intro env args p ku gu gr tmpl e h1 h2 h3 h4 h5 h6 h7 h8 h9 h10 h11
      h12 h13 h14
    simp [main, prepare_notebook, h1, h2, h3, h4, h5, h6, h7, h8, h9,
      h10, h11, h12, h13, h14]

/-- Witness for C3: the sentinel on `CalledProcessError`, a
propagating parse failure, a propagating `NotImplementedError`, and a
propagating metadata-write failure on the sample environment. -/
theorem C3_witness :
    get_git_branch_name (.error (.osError "no git"))
      = .error (.osError "no git")
    ∧ main (mkEnv (.error (.osError "boom")))
      = ([], .error (.osError "boom"))
    ∧ (main (mkEnv (.ok (mkArgs false false false false false
        false)))).2 = .error .notImplementedError :=
  ⟨C3_single_handler.2.2.1 (.osError "no git") (by simp),
   C3_single_handler.2.2.2.1 (mkEnv (.error (.osError "boom")))
     (.osError "boom") rfl,
   C3_single_handler.2.2.2.2.1
     (mkEnv (.ok (mkArgs false false false false false false)))
     (mkArgs false false false false false false) rfl rfl⟩

end RemoteTraining
